import Mathlib

/-!
Shallow embedding of `src/font_face.rs` from the dwrote-rs repository.

The file under verification wraps a refcounted native DirectWrite font-face
handle (`IDWriteFontFace`) and exposes a query surface: metrics, glyph
indices, glyph metrics, font-file enumeration, raw table extraction, and
rendering-mode recommendation.  The native layer (winapi COM calls) is
external to the repository; we model it as a record of pure functions
(`NativeFace`, `NativeFactory`) describing the out-parameter values and
status codes each native call produces.  The wrapper functions are
translated line by line from the Rust source.

Conventions of the embedding:
* `HRESULT` status codes are integers; `0` is success, as tested by the
  Rust source's `assert!(hr == 0)` lines.
* a failing `assert!` (a Rust panic, i.e. a fatal non-recoverable fault) is
  modelled by the result `none` of an `Option`-valued translation;
* machine integers are `Nat`/`Int`; a value of the 16-bit unsigned ABI type
  is its bit pattern, i.e. the underlying number reduced `% 65536`;
* `f32` values are never computed on by the wrapper, only passed through
  verbatim, so they are modelled opaquely by their bit pattern (`Float32`);
* raw pointers are modelled by their numeric value (`0` is the null
  pointer);
* the acquisition and release of refcounted native resources
  (the font-table context of `TryGetFontTable`/`ReleaseFontTable`, and the
  per-file references written by the second `GetFiles` call) are recorded
  in an event trace returned alongside the result, so that the
  resource-balance properties the specification states can be proved as
  equalities over the trace.
-/

/-- Status code of a native COM call (Rust `i32` HRESULT); `0` is success. -/
abbrev HRESULT := Int

/-- DWRITE_RENDERING_MODE, a `u32` enumeration. -/
abbrev DWRITE_RENDERING_MODE := Nat

/-- winapi value of DWRITE_RENDERING_MODE_DEFAULT. -/
def DWRITE_RENDERING_MODE_DEFAULT : DWRITE_RENDERING_MODE := 0

/-- winapi value of DWRITE_RENDERING_MODE_NATURAL_SYMMETRIC. -/
def DWRITE_RENDERING_MODE_NATURAL_SYMMETRIC : DWRITE_RENDERING_MODE := 5

/-- DWRITE_MEASURING_MODE, a `u32` enumeration, passed through verbatim. -/
abbrev DWRITE_MEASURING_MODE := Nat

/-- DWRITE_FONT_SIMULATIONS, a `u32` flag set, passed through verbatim. -/
abbrev DWRITE_FONT_SIMULATIONS := Nat

/-- DWRITE_FONT_FACE_TYPE, a `u32` enumeration, passed through verbatim. -/
abbrev DWRITE_FONT_FACE_TYPE := Nat

/-- an `*mut IDWriteRenderingParams` pointer, opaque to the wrapper. -/
abbrev RenderParamsPtr := Nat

/-- a `*const DWRITE_MATRIX` pointer, opaque to the wrapper (0 = null = identity). -/
abbrev MatrixPtr := Nat

/-- an `*mut IDWriteFontFile` pointer; `0` is the null pointer. -/
abbrev FilePtr := Nat

/-- a 32-bit float, passed through the wrapper verbatim and never computed
on; modelled opaquely by its bit pattern. -/
structure Float32 where
  bits : Nat
deriving DecidableEq, Repr

/-- DWRITE_FONT_METRICS (the repository re-exports it as `FontMetrics`):
unsigned 16-bit fields as `Nat`, signed 16-bit fields as `Int`. -/
structure FontMetrics where
  designUnitsPerEm : Nat
  ascent : Nat
  descent : Nat
  lineGap : Int
  capHeight : Nat
  xHeight : Nat
  underlinePosition : Int
  underlineThickness : Nat
  strikethroughPosition : Int
  strikethroughThickness : Nat
deriving DecidableEq, Repr

/-- DWRITE_GLYPH_METRICS: signed 32-bit fields as `Int`, unsigned as `Nat`. -/
structure DWRITE_GLYPH_METRICS where
  leftSideBearing : Int
  advanceWidth : Nat
  rightSideBearing : Int
  topSideBearing : Int
  advanceHeight : Nat
  bottomSideBearing : Int
  verticalOriginY : Int
deriving DecidableEq, Repr

/-- Out-parameter values produced by one native `TryGetFontTable` call:
its status, the byte span `(tableData_ptr, tableSize)` reported (modelled
directly as the list of bytes in that span), and the `exists` flag.  Per
the COM contract a table context requiring `ReleaseFontTable` is handed
out exactly when the call succeeds and the table exists. -/
structure TableQueryResult where
  hr : HRESULT
  tableData : List Nat
  tableExists : Bool
deriving DecidableEq, Repr

/-- Out-parameter values produced by one native `GetFiles` call made with a
non-null destination buffer: its status, the value stored back through the
`number_of_files` out parameter, and the font-file pointers the native
layer writes (and addrefs, per the COM contract) into the buffer prefix. -/
structure GetFilesFillResult where
  hr : HRESULT
  reported : Nat
  written : List FilePtr
deriving DecidableEq, Repr

/-- Model of the wrapped native `IDWriteFontFace`: one field per native
call the Rust source makes, giving the out-parameter values and status
code that call produces.  Buffer-filling calls are described per element,
matching the DirectWrite contract that the i-th output slot is computed
from the i-th input slot. -/
structure NativeFace where
  /-- `GetMetrics` writes a DWRITE_FONT_METRICS record and returns no status. -/
  GetMetrics : FontMetrics
  /-- the first `GetFiles` call (null buffer): status and file count. -/
  GetFiles_count : HRESULT × Nat
  /-- the second `GetFiles` call, given the buffer capacity passed in. -/
  GetFiles_fill : Nat → GetFilesFillResult
  /-- `GetType` returns a DWRITE_FONT_FACE_TYPE with no status. -/
  GetType : DWRITE_FONT_FACE_TYPE
  /-- `GetIndex` returns the face index with no status. -/
  GetIndex : Nat
  /-- `GetGlyphCount` returns a UINT16 with no status; the field holds the
  native-supplied number, truncated to 16 bits at the ABI boundary. -/
  GetGlyphCount : Nat
  /-- status of a `GetGlyphIndices` call on the given code-point array. -/
  GetGlyphIndicesHr : List Nat → HRESULT
  /-- the glyph index the native layer writes for one code point; per the
  DirectWrite contract an unmapped code point yields the missing-glyph
  sentinel index 0. -/
  glyphForCodePoint : Nat → Nat
  /-- status of a `GetDesignGlyphMetrics` call on the given arguments. -/
  GetDesignGlyphMetricsHr : List Nat → Bool → HRESULT
  /-- the design-space metrics record written for one glyph index. -/
  designGlyphMetric : Nat → Bool → DWRITE_GLYPH_METRICS
  /-- status of a `GetGdiCompatibleGlyphMetrics` call on the given arguments. -/
  GetGdiCompatibleGlyphMetricsHr :
    Float32 → Float32 → MatrixPtr → Bool → List Nat → Bool → HRESULT
  /-- the device-adjusted metrics record written for one glyph index. -/
  gdiGlyphMetric :
    Float32 → Float32 → MatrixPtr → Bool → Nat → Bool → DWRITE_GLYPH_METRICS
  /-- `TryGetFontTable` out-parameter values for a given table tag. -/
  TryGetFontTable : Nat → TableQueryResult
  /-- `GetRecommendedRenderingMode`: given em size, pixels per dip,
  measuring mode, rendering-params pointer, and the current content of the
  `render_mode` out parameter, produce the status and the final content of
  the out parameter (a native that writes nothing returns it unchanged). -/
  GetRecommendedRenderingMode :
    Float32 → Float32 → DWRITE_MEASURING_MODE → RenderParamsPtr →
      DWRITE_RENDERING_MODE → HRESULT × DWRITE_RENDERING_MODE

/-- Model of the external `DWriteFactory()` object: `CreateFontFace` takes
the face type, the file count, the file-pointer array, the face index and
the simulation flags, and produces a status code and (on success) the new
native face handed back through `getter_addrefs`. -/
structure NativeFactory where
  CreateFontFace :
    DWRITE_FONT_FACE_TYPE → Nat → List FilePtr → Nat →
      DWRITE_FONT_SIMULATIONS → HRESULT × NativeFace

/-- the public `FontFace` struct: the wrapped native reference and the
metrics snapshot captured at construction. -/
structure FontFace where
  native : NativeFace
  metrics : FontMetrics

/-- the public `FontFile` struct, as far as this module is concerned:
`FontFile::take(ComPtr::already_addrefed(p))` adopts the raw pointer. -/
structure FontFile where
  ptr : FilePtr
deriving DecidableEq, Repr

/-- `FontFile::take(ComPtr::already_addrefed(p))`: adopt an
already-addrefed raw file pointer into an owning wrapper. -/
def FontFile.take (p : FilePtr) : FontFile := ⟨p⟩

/-- `FontFace::take`: consume a native reference, immediately query
`GetMetrics` into the snapshot (the `zeroed()` initializer is fully
overwritten by the native call), and build the struct. -/
def FontFace.take (native : NativeFace) : FontFace :=
  { native := native, metrics := native.GetMetrics }

/-- a resource event on a native font-file reference (an addref performed
by the native `GetFiles` fill call, or a release performed when a
`ComPtr` adopted with `already_addrefed` is dropped).  Dropping a `ComPtr`
that holds the null pointer performs no release, so events are only ever
recorded for non-null pointers. -/
inductive FileEvent
  | acquire (p : FilePtr)
  | release (p : FilePtr)
deriving DecidableEq, Repr

/-- the non-null pointers of a list (a null `ComPtr` holds no reference). -/
def nonnullPtrs (l : List FilePtr) : List FilePtr :=
  l.filter (fun p => p != 0)

/-- `get_raw_files`: first `GetFiles` call with a null buffer to learn the
count (`assert!(hr == 0)`), then a buffer of that many null pointers,
then the second `GetFiles` call filling it (`assert!(hr == 0)`), returning
the buffer.  The native layer writes (and addrefs) `written` into the
buffer prefix; slots it does not write keep their null initializer.  A
failing native call hands out no references (COM contract). -/
def FontFace.get_raw_files (f : FontFace) : Option (List FilePtr) × List FileEvent :=
  let c := f.native.GetFiles_count
  if c.1 ≠ 0 then (none, [])
  else
    let r := f.native.GetFiles_fill c.2
    let writtenEff := r.written.take c.2
    let acq := if r.hr = 0 then (nonnullPtrs writtenEff).map FileEvent.acquire else []
    if r.hr ≠ 0 then (none, acq)
    else (some (writtenEff ++ List.replicate (c.2 - writtenEff.length) 0), acq)

/-- `get_files`: enumerate the raw file pointers and transfer ownership of
each into a `FontFile` via `FontFile::take(ComPtr::already_addrefed(*p))`. -/
def FontFace.get_files (f : FontFace) : Option (List FontFile) × List FileEvent :=
  match f.get_raw_files with
  | (none, ev) => (none, ev)
  | (some file_ptrs, ev) => (some (file_ptrs.map FontFile.take), ev)

/-- `create_font_face_with_simulations`: enumerate the raw files, read the
face type and index, call the factory's `CreateFontFace`, then drop one
`ComPtr::already_addrefed(p)` per buffer entry (releasing each non-null
pointer exactly once), and only then `assert!(hr == 0)`; on success wrap
the new native face with `FontFace::take`. -/
def FontFace.create_font_face_with_simulations (factory : NativeFactory)
    (f : FontFace) (simulations : DWRITE_FONT_SIMULATIONS) :
    Option FontFace × List FileEvent :=
  match f.get_raw_files with
  | (none, ev1) => (none, ev1)
  | (some file_ptrs, ev1) =>
    let face_type := f.native.GetType
    let face_index := f.native.GetIndex
    let r := factory.CreateFontFace face_type file_ptrs.length file_ptrs
      face_index simulations
    let ev2 := (nonnullPtrs file_ptrs).map FileEvent.release
    if r.1 ≠ 0 then (none, ev1 ++ ev2)
    else (some (FontFace.take r.2), ev1 ++ ev2)

/-- `get_glyph_count`: return the native `GetGlyphCount` value through the
`u16` public return type (the UINT16 ABI truncates to 16 bits). -/
def FontFace.get_glyph_count (f : FontFace) : Nat :=
  f.native.GetGlyphCount % 65536

/-- `get_metrics`: re-query the native handle for a fresh metrics record
(the `zeroed()` initializer is fully overwritten; no status to check). -/
def FontFace.get_metrics (f : FontFace) : FontMetrics :=
  f.native.GetMetrics

/-- the missing-glyph sentinel index DirectWrite reports for a code point
with no mapped glyph. -/
def missingGlyphSentinel : Nat := 0

/-- `get_glyph_indices`: a zeroed `u16` buffer of the input's length is
filled positionally by the native call, then `assert!(hr == 0)`; each slot
receives the native glyph index for the code point at its position,
through the `u16` slot type. -/
def FontFace.get_glyph_indices (f : FontFace) (code_points : List Nat) :
    Option (List Nat) :=
  let glyph_indices := code_points.map (fun cp => f.native.glyphForCodePoint cp % 65536)
  if f.native.GetGlyphIndicesHr code_points ≠ 0 then none
  else some glyph_indices

/-- `get_design_glyph_metrics`: a zeroed metrics buffer of the input's
length is filled positionally by the native call, then `assert!(hr == 0)`. -/
def FontFace.get_design_glyph_metrics (f : FontFace) (glyph_indices : List Nat)
    (is_sideways : Bool) : Option (List DWRITE_GLYPH_METRICS) :=
  let metrics := glyph_indices.map (fun g => f.native.designGlyphMetric g is_sideways)
  if f.native.GetDesignGlyphMetricsHr glyph_indices is_sideways ≠ 0 then none
  else some metrics

/-- `get_gdi_compatible_glyph_metrics`: same shape as the design-space
variant; all numeric parameters are passed through verbatim. -/
def FontFace.get_gdi_compatible_glyph_metrics (f : FontFace)
    (em_size pixels_per_dip : Float32) (transform : MatrixPtr)
    (use_gdi_natural : Bool) (glyph_indices : List Nat) (is_sideways : Bool) :
    Option (List DWRITE_GLYPH_METRICS) :=
  let metrics := glyph_indices.map
    (fun g => f.native.gdiGlyphMetric em_size pixels_per_dip transform
      use_gdi_natural g is_sideways)
  if f.native.GetGdiCompatibleGlyphMetricsHr em_size pixels_per_dip transform
      use_gdi_natural glyph_indices is_sideways ≠ 0 then none
  else some metrics

/-- a resource event on the native font-table context (the acquisition
performed by a successful `TryGetFontTable` with `exists` set, or a
`ReleaseFontTable` call). -/
inductive TableEvent
  | acquire
  | release
deriving DecidableEq, Repr

/-- `get_font_table`: call `TryGetFontTable`, `assert!(hr == 0)`, return
`None` when the native layer reports the table absent, otherwise copy the
reported byte span into an owned buffer, call `ReleaseFontTable` on the
context, and return the bytes.  Per the COM contract a context requiring
release is handed out exactly when the call succeeds and the table exists,
which is when the trace records an acquisition.  The outer `Option` is the
fatal-assert layer; the inner `Option` is the Rust return type. -/
def FontFace.get_font_table (f : FontFace) (opentype_table_tag : Nat) :
    Option (Option (List Nat)) × List TableEvent :=
  let r := f.native.TryGetFontTable opentype_table_tag
  let acq := if r.hr = 0 ∧ r.tableExists then [TableEvent.acquire] else []
  if r.hr ≠ 0 then (none, acq)
  else if r.tableExists = false then (some none, acq)
  else
    let table_bytes := r.tableData
    (some (some table_bytes), acq ++ [TableEvent.release])

/-- `get_recommended_rendering_mode`: initialize the out parameter to
DWRITE_RENDERING_MODE_DEFAULT, make the native call, and branch on the
source's literal condition `!(hr != 0)`: when it holds, return
DWRITE_RENDERING_MODE_NATURAL_SYMMETRIC, otherwise return the out
parameter's content.  No assert: this query never faults. -/
def FontFace.get_recommended_rendering_mode (f : FontFace)
    (em_size pixels_per_dip : Float32) (measure_mode : DWRITE_MEASURING_MODE)
    (rendering_params : RenderParamsPtr) : DWRITE_RENDERING_MODE :=
  let render_mode := DWRITE_RENDERING_MODE_DEFAULT
  let r := f.native.GetRecommendedRenderingMode em_size pixels_per_dip
    measure_mode rendering_params render_mode
  if ¬(r.1 ≠ 0) then DWRITE_RENDERING_MODE_NATURAL_SYMMETRIC
  else r.2

/-- `get_recommended_rendering_mode_default_params`: delegate to
`get_recommended_rendering_mode`, substituting the process-wide
`DefaultDWriteRenderParams()` handle (modelled as a parameter, since it is
an external zero-argument accessor). -/
def FontFace.get_recommended_rendering_mode_default_params
    (defaultRenderParams : RenderParamsPtr) (f : FontFace)
    (em_size pixels_per_dip : Float32) (measure_mode : DWRITE_MEASURING_MODE) :
    DWRITE_RENDERING_MODE :=
  f.get_recommended_rendering_mode em_size pixels_per_dip measure_mode
    defaultRenderParams

/-! ### Concrete native instances used to evaluate the embedding -/

/-- an all-zero font-metrics record. -/
def zeroFontMetrics : FontMetrics := ⟨0, 0, 0, 0, 0, 0, 0, 0, 0, 0⟩

/-- an all-zero glyph-metrics record. -/
def zeroGlyphMetrics : DWRITE_GLYPH_METRICS := ⟨0, 0, 0, 0, 0, 0, 0⟩

/-- a baseline native face whose every call succeeds with zero data;
concrete test natives below are built by overriding single fields. -/
def baseNative : NativeFace where
  GetMetrics := zeroFontMetrics
  GetFiles_count := (0, 0)
  GetFiles_fill := fun _ => ⟨0, 0, []⟩
  GetType := 0
  GetIndex := 0
  GetGlyphCount := 0
  GetGlyphIndicesHr := fun _ => 0
  glyphForCodePoint := fun _ => 0
  GetDesignGlyphMetricsHr := fun _ _ => 0
  designGlyphMetric := fun _ _ => zeroGlyphMetrics
  GetGdiCompatibleGlyphMetricsHr := fun _ _ _ _ _ _ => 0
  gdiGlyphMetric := fun _ _ _ _ _ _ => zeroGlyphMetrics
  TryGetFontTable := fun _ => ⟨0, [], false⟩
  GetRecommendedRenderingMode := fun _ _ _ _ m => (0, m)

/-- a baseline factory whose `CreateFontFace` succeeds and returns
`baseNative`. -/
def baseFactory : NativeFactory where
  CreateFontFace := fun _ _ _ _ _ => (0, baseNative)

/-! ### Trace-counting helpers -/

/-- the pointers acquired (addrefed) in a file-event trace. -/
def fileAcquires (evs : List FileEvent) : List FilePtr :=
  evs.filterMap (fun e => match e with
    | FileEvent.acquire p => some p
    | FileEvent.release _ => none)

/-- the pointers released in a file-event trace. -/
def fileReleases (evs : List FileEvent) : List FilePtr :=
  evs.filterMap (fun e => match e with
    | FileEvent.acquire _ => none
    | FileEvent.release p => some p)

/-- the number of table-context acquisitions in a table-event trace. -/
def tableAcquireCount (evs : List TableEvent) : Nat :=
  (evs.filterMap (fun e => match e with
    | TableEvent.acquire => some ()
    | TableEvent.release => none)).length

/-- the number of `ReleaseFontTable` calls in a table-event trace. -/
def tableReleaseCount (evs : List TableEvent) : Nat :=
  (evs.filterMap (fun e => match e with
    | TableEvent.acquire => none
    | TableEvent.release => some ())).length


/-! ### Theorems settling the claims -/

/-- a native face whose `GetRecommendedRenderingMode` succeeds (status 0)
and reports DWRITE_RENDERING_MODE_GDI_CLASSIC (2) through the out
parameter. -/
def c1SuccessNative : NativeFace :=
  { baseNative with GetRecommendedRenderingMode := fun _ _ _ _ _ => (0, 2) }

/-- a native face whose `GetRecommendedRenderingMode` fails (status 1)
and leaves the out parameter untouched. -/
def c1FailureNative : NativeFace :=
  { baseNative with GetRecommendedRenderingMode := fun _ _ _ _ m => (1, m) }

/-- C1: the source's branch condition `!(hr != 0)` inverts the status
test: when the native call SUCCEEDS reporting mode 2, the wrapper
discards it and returns the natural-symmetric fallback (5), and when the
native call FAILS, the wrapper returns the out parameter's initializer
(DWRITE_RENDERING_MODE_DEFAULT, 0) instead of the fallback — the exact
opposite of the claimed (and specified) behaviour. -/
theorem get_recommended_rendering_mode_branches_inverted :
    (FontFace.take c1SuccessNative).get_recommended_rendering_mode ⟨0⟩ ⟨0⟩ 0 0 =
        DWRITE_RENDERING_MODE_NATURAL_SYMMETRIC ∧
      DWRITE_RENDERING_MODE_NATURAL_SYMMETRIC ≠ 2 ∧
      (FontFace.take c1FailureNative).get_recommended_rendering_mode ⟨0⟩ ⟨0⟩ 0 0 =
        DWRITE_RENDERING_MODE_DEFAULT ∧
      DWRITE_RENDERING_MODE_DEFAULT ≠ DWRITE_RENDERING_MODE_NATURAL_SYMMETRIC :=
  ⟨rfl, by decide, rfl, by decide⟩

/-- C2: for every native face and every table tag, the trace of one
`get_font_table` call contains exactly as many `ReleaseFontTable` calls as
table-context acquisitions (and at most one acquisition), on every return
path: present, absent, and fatal fault. -/
theorem get_font_table_release_balanced (f : FontFace) (tag : Nat) :
    tableReleaseCount (f.get_font_table tag).2 =
        tableAcquireCount (f.get_font_table tag).2 ∧
      tableAcquireCount (f.get_font_table tag).2 ≤ 1 := by
  unfold FontFace.get_font_table
  by_cases h1 : (f.native.TryGetFontTable tag).hr = 0 <;>
    by_cases h2 : (f.native.TryGetFontTable tag).tableExists <;>
      simp [h1, h2, tableAcquireCount, tableReleaseCount, List.filterMap]

/-- C5: when `TryGetFontTable` succeeds, `get_font_table` returns the
explicit absence value `None` (not a fault) if the native layer reports
the table absent, and returns byte-for-byte the span the native layer
reported if the table is present. -/
theorem get_font_table_absent_vs_present (f : FontFace) (tag : Nat)
    (h : (f.native.TryGetFontTable tag).hr = 0) :
    ((f.native.TryGetFontTable tag).tableExists = false →
      (f.get_font_table tag).1 = some none) ∧
    ((f.native.TryGetFontTable tag).tableExists = true →
      (f.get_font_table tag).1 =
        some (some (f.native.TryGetFontTable tag).tableData)) := by
  unfold FontFace.get_font_table
  constructor <;> intro hex <;> simp [h, hex]

/-- a native face that reports table bytes `[1, 2, 3]` present for every
tag. -/
def presentTableNative : NativeFace :=
  { baseNative with TryGetFontTable := fun _ => ⟨0, [1, 2, 3], true⟩ }

/-- Witness for C5 at a concrete native: the present branch returns
exactly the native-reported span. -/
theorem get_font_table_absent_vs_present_witness :
    ((FontFace.take presentTableNative).get_font_table 42).1 =
      some (some [1, 2, 3]) :=
  (get_font_table_absent_vs_present (FontFace.take presentTableNative) 42 rfl).2 rfl

/-- C8: the metrics snapshot stored by `take` is exactly the value the
native `GetMetrics` call produced at construction, and `get_metrics`
called on the freshly constructed handle returns that same value; the
snapshot is a plain stored field that no operation of the module writes
after construction. -/
theorem metrics_snapshot_cached_at_construction (native : NativeFace) :
    (FontFace.take native).metrics = native.GetMetrics ∧
      (FontFace.take native).get_metrics = (FontFace.take native).metrics :=
  ⟨rfl, rfl⟩

/-- C9: the default-params convenience form returns exactly what
`get_recommended_rendering_mode` returns on the same arguments with the
process-wide default rendering-parameters handle substituted. -/
theorem default_params_form_delegates (dp : RenderParamsPtr) (f : FontFace)
    (em_size pixels_per_dip : Float32) (measure_mode : DWRITE_MEASURING_MODE) :
    FontFace.get_recommended_rendering_mode_default_params dp f em_size
        pixels_per_dip measure_mode =
      f.get_recommended_rendering_mode em_size pixels_per_dip measure_mode dp :=
  rfl

/-- C10: `get_glyph_count` returns through the public `u16` type, so its
value is always between 0 and 65535 inclusive. -/
theorem get_glyph_count_le_65535 (f : FontFace) : f.get_glyph_count ≤ 65535 := by
  unfold FontFace.get_glyph_count
  omega

/-- a native face whose first `GetFiles` call reports one file but whose
second call succeeds while reporting zero files and writing nothing. -/
def countDisagreeNative : NativeFace :=
  { baseNative with
      GetFiles_count := (0, 1)
      GetFiles_fill := fun _ => ⟨0, 0, []⟩ }

/-- C3 counterexample: when the second `GetFiles` call succeeds but its
reported count (0) disagrees with the first call's count (1), `get_files`
does NOT fault: it silently returns a list of the first-reported length,
padded with a wrapper around the null pointer — the counts are never
compared. -/
theorem get_files_count_disagreement_not_fatal :
    (countDisagreeNative.GetFiles_fill 1).reported ≠
        countDisagreeNative.GetFiles_count.2 ∧
      ((FontFace.take countDisagreeNative).get_files).1 =
        some [FontFile.take 0] :=
  ⟨by decide, rfl⟩

/-- C3 (amended): `get_files` performs the two-call count-then-fill
protocol and treats a non-success status from either call as a fatal
fault; when both calls succeed it returns a list whose length equals the
count reported by the FIRST call, regardless of the count reported by the
second call, which is never compared against the first. -/
theorem get_files_two_call_protocol (f : FontFace) :
    (f.native.GetFiles_count.1 ≠ 0 → (f.get_files).1 = none) ∧
      (f.native.GetFiles_count.1 = 0 →
        (f.native.GetFiles_fill f.native.GetFiles_count.2).hr ≠ 0 →
        (f.get_files).1 = none) ∧
      (f.native.GetFiles_count.1 = 0 →
        (f.native.GetFiles_fill f.native.GetFiles_count.2).hr = 0 →
        ∃ l, (f.get_files).1 = some l ∧
          l.length = f.native.GetFiles_count.2) := by
  unfold FontFace.get_files FontFace.get_raw_files
  refine ⟨?_, ?_, ?_⟩
  · intro h
    simp [h]
  · intro h1 h2
    simp [h1, h2]
  · intro h1 h2
    simp [h1, h2]

/-- a native face with two files, both `GetFiles` calls consistent. -/
def twoFilesNative : NativeFace :=
  { baseNative with
      GetFiles_count := (0, 2)
      GetFiles_fill := fun _ => ⟨0, 2, [7, 8]⟩ }

/-- Witness for the amended C3 at a concrete native with two files. -/
theorem get_files_two_call_protocol_witness :
    ∃ l, ((FontFace.take twoFilesNative).get_files).1 = some l ∧
      l.length = 2 :=
  (get_files_two_call_protocol (FontFace.take twoFilesNative)).2.2 rfl rfl

/-- C4: when the native status is success, `get_glyph_indices`,
`get_design_glyph_metrics` and `get_gdi_compatible_glyph_metrics` return
an output of exactly the input's length whose i-th element is the native
result for the i-th input (so correlation is purely positional and is
preserved under any reordering of the input, as the final conjunct states
for glyph-index queries over two arbitrary input sequences); a code point
the native layer maps to the missing-glyph sentinel yields that sentinel
at its position rather than a fault. -/
theorem glyph_query_batches_position_correlated (f : FontFace)
    (code_points glyphs : List Nat) (is_sideways : Bool)
    (em_size pixels_per_dip : Float32) (transform : MatrixPtr)
    (use_gdi_natural : Bool)
    (h1 : f.native.GetGlyphIndicesHr code_points = 0)
    (h2 : f.native.GetDesignGlyphMetricsHr glyphs is_sideways = 0)
    (h3 : f.native.GetGdiCompatibleGlyphMetricsHr em_size pixels_per_dip
      transform use_gdi_natural glyphs is_sideways = 0) :
    (∃ out, f.get_glyph_indices code_points = some out ∧
      out.length = code_points.length ∧
      (∀ i : Nat, out[i]? = (code_points[i]?).map
        (fun cp => f.native.glyphForCodePoint cp % 65536)) ∧
      (∀ (i cp : Nat), code_points[i]? = some cp →
        f.native.glyphForCodePoint cp = missingGlyphSentinel →
        out[i]? = some missingGlyphSentinel)) ∧
    (∃ out, f.get_design_glyph_metrics glyphs is_sideways = some out ∧
      out.length = glyphs.length ∧
      ∀ i : Nat, out[i]? = (glyphs[i]?).map
        (fun g => f.native.designGlyphMetric g is_sideways)) ∧
    (∃ out, f.get_gdi_compatible_glyph_metrics em_size pixels_per_dip
        transform use_gdi_natural glyphs is_sideways = some out ∧
      out.length = glyphs.length ∧
      ∀ i : Nat, out[i]? = (glyphs[i]?).map
        (fun g => f.native.gdiGlyphMetric em_size pixels_per_dip transform
          use_gdi_natural g is_sideways)) ∧
    (∀ cps1 cps2 out1 out2,
      f.native.GetGlyphIndicesHr cps1 = 0 →
      f.native.GetGlyphIndicesHr cps2 = 0 →
      f.get_glyph_indices cps1 = some out1 →
      f.get_glyph_indices cps2 = some out2 →
      ∀ (i j : Nat), cps1[i]? = cps2[j]? → out1[i]? = out2[j]?) := by
  refine ⟨⟨code_points.map (fun cp => f.native.glyphForCodePoint cp % 65536),
      ?_, ?_, ?_, ?_⟩,
    ⟨glyphs.map (fun g => f.native.designGlyphMetric g is_sideways), ?_, ?_, ?_⟩,
    ⟨glyphs.map (fun g => f.native.gdiGlyphMetric em_size pixels_per_dip
      transform use_gdi_natural g is_sideways), ?_, ?_, ?_⟩, ?_⟩
  · simp [FontFace.get_glyph_indices, h1]
  · simp
  · intro i
    simp [List.getElem?_map]
  · intro i cp hcp hmg
    simp [List.getElem?_map, hcp, hmg, missingGlyphSentinel]
  · simp [FontFace.get_design_glyph_metrics, h2]
  · simp
  · intro i
    simp [List.getElem?_map]
  · simp [FontFace.get_gdi_compatible_glyph_metrics, h3]
  · simp
  · intro i
    simp [List.getElem?_map]
  · intro cps1 cps2 out1 out2 ha hb hc hd i j hij
    simp [FontFace.get_glyph_indices, ha] at hc
    simp [FontFace.get_glyph_indices, hb] at hd
    subst hc
    subst hd
    simp [List.getElem?_map, hij]

/-- a native face mapping code point 65 (U+0041) to glyph 36 and every
other code point (e.g. the out-of-range 0x10FFFF) to the missing-glyph
sentinel. -/
def cmapNative : NativeFace :=
  { baseNative with glyphForCodePoint := fun cp => if cp = 65 then 36 else 0 }

/-- Witness for C4 at the spec's scenario input `[0x41, 0x10FFFF]`. -/
theorem glyph_query_batches_position_correlated_witness :
    ∃ out, (FontFace.take cmapNative).get_glyph_indices [65, 1114111] =
        some out ∧
      out.length = ([65, 1114111] : List Nat).length ∧
      (∀ (i : Nat), out[i]? = (([65, 1114111] : List Nat)[i]?).map
        (fun cp => (FontFace.take cmapNative).native.glyphForCodePoint cp % 65536)) ∧
      (∀ (i cp : Nat), ([65, 1114111] : List Nat)[i]? = some cp →
        (FontFace.take cmapNative).native.glyphForCodePoint cp =
          missingGlyphSentinel →
        out[i]? = some missingGlyphSentinel) :=
  (glyph_query_batches_position_correlated (FontFace.take cmapNative)
    [65, 1114111] [] false ⟨0⟩ ⟨0⟩ 0 false rfl rfl rfl).1

/-! ### Helper lemmas about file-event traces -/

theorem fileAcquires_append (l1 l2 : List FileEvent) :
    fileAcquires (l1 ++ l2) = fileAcquires l1 ++ fileAcquires l2 := by
  simp [fileAcquires]

theorem fileReleases_append (l1 l2 : List FileEvent) :
    fileReleases (l1 ++ l2) = fileReleases l1 ++ fileReleases l2 := by
  simp [fileReleases]

theorem fileAcquires_map_acquire (l : List FilePtr) :
    fileAcquires (l.map FileEvent.acquire) = l := by
  simp [fileAcquires, List.filterMap_map, Function.comp_def]

theorem fileReleases_map_acquire (l : List FilePtr) :
    fileReleases (l.map FileEvent.acquire) = [] := by
  simp [fileReleases, List.filterMap_map, Function.comp_def]

theorem fileAcquires_map_release (l : List FilePtr) :
    fileAcquires (l.map FileEvent.release) = [] := by
  simp [fileAcquires, List.filterMap_map, Function.comp_def]

theorem fileReleases_map_release (l : List FilePtr) :
    fileReleases (l.map FileEvent.release) = l := by
  simp [fileReleases, List.filterMap_map, Function.comp_def]

theorem nonnullPtrs_append (l1 l2 : List FilePtr) :
    nonnullPtrs (l1 ++ l2) = nonnullPtrs l1 ++ nonnullPtrs l2 := by
  simp [nonnullPtrs]

theorem nonnullPtrs_replicate_zero (k : Nat) :
    nonnullPtrs (List.replicate k 0) = [] := by
  simp [nonnullPtrs]

/-- characterization of `get_raw_files`: either it faults having acquired
nothing, or it returns a pointer list whose trace is exactly one
acquisition per non-null returned pointer. -/
theorem get_raw_files_characterization (f : FontFace) :
    f.get_raw_files = (none, []) ∨
      ∃ l, f.get_raw_files = (some l, (nonnullPtrs l).map FileEvent.acquire) := by
  unfold FontFace.get_raw_files
  by_cases h1 : f.native.GetFiles_count.1 = 0
  · by_cases h2 : (f.native.GetFiles_fill f.native.GetFiles_count.2).hr = 0
    · right
      refine ⟨(f.native.GetFiles_fill f.native.GetFiles_count.2).written.take
          f.native.GetFiles_count.2 ++
        List.replicate (f.native.GetFiles_count.2 -
          ((f.native.GetFiles_fill f.native.GetFiles_count.2).written.take
            f.native.GetFiles_count.2).length) 0, ?_⟩
      simp [h1, h2, nonnullPtrs_append, nonnullPtrs_replicate_zero]
    · left
      simp [h1, h2]
  · left
    simp [h1]

/-- C6: in the trace of one `create_font_face_with_simulations` call, the
sequence of released file pointers equals the sequence of acquired file
pointers — every enumerated reference is released exactly once, never
leaked, never double-released — for every native face, every factory
(succeeding or failing `CreateFontFace`), and every simulation flag set. -/
theorem create_font_face_releases_files_balanced (factory : NativeFactory)
    (f : FontFace) (simulations : DWRITE_FONT_SIMULATIONS) :
    fileReleases (f.create_font_face_with_simulations factory simulations).2 =
      fileAcquires (f.create_font_face_with_simulations factory simulations).2 := by
  rcases get_raw_files_characterization f with h | ⟨l, h⟩
  · unfold FontFace.create_font_face_with_simulations
    rw [h]
    rfl
  · unfold FontFace.create_font_face_with_simulations
    rw [h]
    by_cases hc : (factory.CreateFontFace f.native.GetType l.length l
        f.native.GetIndex simulations).1 = 0 <;>
      simp [hc, fileReleases_append, fileAcquires_append,
        fileAcquires_map_acquire, fileReleases_map_acquire,
        fileAcquires_map_release, fileReleases_map_release]

/-- C7: every status-bearing native call the wrapper asserts on — glyph
index retrieval, design and GDI-compatible glyph metrics retrieval, both
file-enumeration calls, table lookup, and derived-face creation — turns
any non-success status into a fatal fault (`none`), and a successful
status into a correctly-shaped result (output length equal to input
length for the batched queries, first-reported count for enumeration);
the rendering-mode query alone checks its status without asserting and
always returns a usable rendering-mode value (one of the two branch
values), never a fault.  Metrics retrieval (`GetMetrics`) and
`get_glyph_count` return no status at all and cannot fail. -/
theorem native_nonsuccess_status_is_fatal (f : FontFace)
    (factory : NativeFactory) (code_points glyphs : List Nat)
    (is_sideways use_gdi_natural : Bool) (em_size pixels_per_dip : Float32)
    (transform : MatrixPtr) (tag : Nat)
    (simulations : DWRITE_FONT_SIMULATIONS)
    (measure_mode : DWRITE_MEASURING_MODE)
    (rendering_params : RenderParamsPtr) :
    (f.native.GetFiles_count.1 ≠ 0 → (f.get_files).1 = none) ∧
      (f.native.GetFiles_count.1 = 0 →
        (f.native.GetFiles_fill f.native.GetFiles_count.2).hr ≠ 0 →
        (f.get_files).1 = none) ∧
      (f.native.GetGlyphIndicesHr code_points ≠ 0 →
        f.get_glyph_indices code_points = none) ∧
      (f.native.GetGlyphIndicesHr code_points = 0 →
        ∃ out, f.get_glyph_indices code_points = some out ∧
          out.length = code_points.length) ∧
      (f.native.GetDesignGlyphMetricsHr glyphs is_sideways ≠ 0 →
        f.get_design_glyph_metrics glyphs is_sideways = none) ∧
      (f.native.GetDesignGlyphMetricsHr glyphs is_sideways = 0 →
        ∃ out, f.get_design_glyph_metrics glyphs is_sideways = some out ∧
          out.length = glyphs.length) ∧
      (f.native.GetGdiCompatibleGlyphMetricsHr em_size pixels_per_dip
          transform use_gdi_natural glyphs is_sideways ≠ 0 →
        f.get_gdi_compatible_glyph_metrics em_size pixels_per_dip transform
          use_gdi_natural glyphs is_sideways = none) ∧
      (f.native.GetGdiCompatibleGlyphMetricsHr em_size pixels_per_dip
          transform use_gdi_natural glyphs is_sideways = 0 →
        ∃ out, f.get_gdi_compatible_glyph_metrics em_size pixels_per_dip
            transform use_gdi_natural glyphs is_sideways = some out ∧
          out.length = glyphs.length) ∧
      ((f.native.TryGetFontTable tag).hr ≠ 0 →
        (f.get_font_table tag).1 = none) ∧
      ((f.native.TryGetFontTable tag).hr = 0 →
        ∃ r, (f.get_font_table tag).1 = some r) ∧
      (∀ l, (f.get_raw_files).1 = some l →
        (factory.CreateFontFace f.native.GetType l.length l
            f.native.GetIndex simulations).1 ≠ 0 →
        (f.create_font_face_with_simulations factory simulations).1 = none) ∧
      (f.get_recommended_rendering_mode em_size pixels_per_dip measure_mode
          rendering_params = DWRITE_RENDERING_MODE_NATURAL_SYMMETRIC ∨
        f.get_recommended_rendering_mode em_size pixels_per_dip measure_mode
            rendering_params =
          (f.native.GetRecommendedRenderingMode em_size pixels_per_dip
            measure_mode rendering_params DWRITE_RENDERING_MODE_DEFAULT).2) := by
  refine ⟨?_, ?_, ?_, ?_, ?_, ?_, ?_, ?_, ?_, ?_, ?_, ?_⟩
  · intro h
    simp [FontFace.get_files, FontFace.get_raw_files, h]
  · intro h1 h2
    simp [FontFace.get_files, FontFace.get_raw_files, h1, h2]
  · intro h
    simp [FontFace.get_glyph_indices, h]
  · intro h
    simp [FontFace.get_glyph_indices, h]
  · intro h
    simp [FontFace.get_design_glyph_metrics, h]
  · intro h
    simp [FontFace.get_design_glyph_metrics, h]
  · intro h
    simp [FontFace.get_gdi_compatible_glyph_metrics, h]
  · intro h
    simp [FontFace.get_gdi_compatible_glyph_metrics, h]
  · intro h
    simp [FontFace.get_font_table, h]
  · intro h
    unfold FontFace.get_font_table
    by_cases hex : (f.native.TryGetFontTable tag).tableExists <;> simp [h, hex]
  · intro l hl hc
    rcases get_raw_files_characterization f with hr | ⟨l2, hr⟩
    · rw [hr] at hl
      exact absurd hl (by simp)
    · rw [hr] at hl
      have : l2 = l := by simpa using hl
      subst this
      unfold FontFace.create_font_face_with_simulations
      rw [hr]
      simp [hc]
  · unfold FontFace.get_recommended_rendering_mode
    by_cases h : (f.native.GetRecommendedRenderingMode em_size pixels_per_dip
        measure_mode rendering_params DWRITE_RENDERING_MODE_DEFAULT).1 = 0 <;>
      simp [h]

/-- a native face whose `GetGlyphIndices` call reports a non-success
status. -/
def failingGlyphNative : NativeFace :=
  { baseNative with GetGlyphIndicesHr := fun _ => 1 }

/-- Witness for C7 at a concrete native whose glyph-index call fails:
the wrapper faults rather than returning a shaped result. -/
theorem native_nonsuccess_status_is_fatal_witness :
    (FontFace.take failingGlyphNative).get_glyph_indices [65] = none :=
  (native_nonsuccess_status_is_fatal (FontFace.take failingGlyphNative)
    baseFactory [65] [] false false ⟨0⟩ ⟨0⟩ 0 0 0 0 0).2.2.1 (by decide)
